import Mathlib

/-!
Verification of the King-kin5/analysis profiling system against its
specification.  The agent-side session lifecycle (client.StartProfiling,
client.StopProfiling, client.Close, client.collectIOProfile) and the
server-side file store (storage.FileStorage) are embedded shallowly:
time.Time values are integer nanoseconds since the epoch (zero value 0),
Go maps are association lists with unique keys, and the on-disk trees
are explicit per-entity-kind structures.
-/

set_option autoImplicit false

namespace Analysis

/-- First-match lookup in an association list; models indexing a Go map
(whose keys are unique) and keyed lookups in a directory listing. -/
def lookupD {κ α : Type} [DecidableEq κ] : List (κ × α) → κ → Option α
  | [], _ => none
  | e :: l, k => if e.1 = k then some e.2 else lookupD l k

/-- Errors returned by the embedded profiling client (`fmt.Errorf` values
in client.go); the only structured condition is "session not found". -/
inductive GoError where
  | notFound (sessionID : String)
  deriving DecidableEq

/-- types.ProfileSession (pkg/types/types.go): the fields the lifecycle
claims depend on.  start_time/end_time are nanoseconds since the epoch,
so the Go zero value of time.Time is 0; duration is in nanoseconds. -/
structure ProfileSession where
  id : String
  applicationID : String
  startTime : Int
  endTime : Int
  duration : Int
  deriving DecidableEq

/-- client.profilingSession: the session record plus the liveness flag
consulted by periodic collector tasks. -/
structure ProfilingSession where
  session : ProfileSession
  collecting : Bool
  deriving DecidableEq

/-- client.Client: the registry of active sessions, the session records
handed to sendSession so far (the dispatcher is modelled as an accepting
sink), the top-level cancellation flag, and whether the running call
chain currently holds c.mu.  sync.RWMutex is not reentrant: Lock() while
the same goroutine already holds the lock blocks forever, which the
operations below surface as a `none` result. -/
structure ClientState where
  appID : String
  sessions : List (String × ProfilingSession)
  dispatched : List ProfileSession
  cancelled : Bool
  muHeld : Bool
  deriving DecidableEq

/-- client.StartProfiling: allocates the session id from the application
id and the current nanosecond timestamp, registers the session with
end_time at its zero value and the liveness flag set, and returns the id
immediately.  (The per-type collector goroutines it spawns are modelled
separately; they do not touch the registry.) -/
def startProfiling (st : ClientState) (now : Int) : Option (ClientState × String) :=
  if st.muHeld then
    none
  else
    let sessionID := st.appID ++ "_" ++ toString now
    let s : ProfileSession :=
      { id := sessionID, applicationID := st.appID, startTime := now,
        endTime := 0, duration := 0 }
    let ps : ProfilingSession := { session := s, collecting := true }
    some ({ st with
            sessions := (sessionID, ps) :: st.sessions.filter fun e => e.1 != sessionID },
          sessionID)

/-- The finalization step of client.StopProfiling: ps.session.EndTime =
time.Now(); ps.session.Duration = EndTime.Sub(StartTime). -/
def finalize (s : ProfileSession) (now : Int) : ProfileSession :=
  { s with endTime := now, duration := now - s.startTime }

/-- client.StopProfiling: takes c.mu (deadlocking, `none`, if the caller
already holds it), returns NotFound without touching any state when the
id is not registered, and otherwise deregisters the session, clears its
liveness flag, fires its cancellation, sets end_time and duration, and
hands the finished record to sendSession (modelled as an accepted
dispatch). -/
def stopProfiling (st : ClientState) (sessionID : String) (now : Int) :
    Option (ClientState × Except GoError ProfileSession) :=
  if st.muHeld then
    none
  else
    match lookupD st.sessions sessionID with
    | none => some (st, Except.error (GoError.notFound sessionID))
    | some ps =>
      let s' := finalize ps.session now
      some ({ st with
              sessions := st.sessions.filter fun e => e.1 != sessionID,
              dispatched := st.dispatched ++ [s'],
              muHeld := false },
            Except.ok s')

/-- The loop body of client.Close: ranges over the registered session ids
and calls c.StopProfiling on each, still holding c.mu. -/
def closeLoop (now : Int) : ClientState → List String → Option ClientState
  | st, [] => some st
  | st, sessionID :: rest =>
    match stopProfiling st sessionID now with
    | none => none
    | some (st', _) => closeLoop now st' rest

/-- client.Close: fires the top-level cancellation (stopping the
auto-trigger loop), takes c.mu, and stops every registered session
before releasing the lock and syncing the logger; `none` models a call
that never returns. -/
def close (st : ClientState) (now : Int) : Option (ClientState × Except GoError Unit) :=
  let st1 := { st with cancelled := true }
  if st1.muHeld then
    none
  else
    let st2 := { st1 with muHeld := true }
    match closeLoop now st2 (st2.sessions.map Prod.fst) with
    | none => none
    | some st3 => some ({ st3 with muHeld := false }, Except.ok ())

/-- Every session still registered (hence active) carries end_time at its
zero value. -/
def activeEndTimesZero (st : ClientState) : Prop :=
  ∀ e ∈ st.sessions, e.2.session.endTime = 0

theorem lookupD_filter_self {α : Type} (l : List (String × α)) (k : String) :
    lookupD (l.filter fun e => e.1 != k) k = none := by
  induction l with
  | nil => rfl
  | cons e l ih =>
    by_cases h : e.1 = k
    · simpa [List.filter_cons, h] using ih
    · simpa [List.filter_cons, h, lookupD] using ih

theorem lookupD_filter_ne {α : Type} (l : List (String × α)) (j k : String)
    (h : j ≠ k) :
    lookupD (l.filter fun e => e.1 != k) j = lookupD l j := by
  induction l with
  | nil => rfl
  | cons e l ih =>
    by_cases hek : e.1 = k
    · simp [List.filter_cons, hek, lookupD, h.symm, ih]
    · by_cases hej : e.1 = j
      · simp [List.filter_cons, hek, lookupD, hej, h]
      · simp [List.filter_cons, hek, lookupD, hej, ih]

/-- Claim C1: after StopProfiling returns successfully on a registered
session, the dispatched session record has end_time set to the stop time
(nonzero, since the clock never reads the zero value), duration equal to
end_time - start_time, and duration >= 0 when the clock is monotone; and
end_time holds its zero value while a session is active: StartProfiling
registers sessions that way, and both operations preserve the
invariant for all sessions that stay registered. -/
theorem stopProfiling_sets_end_time (st : ClientState) (sessionID : String)
    (ps : ProfilingSession) (now : Int)
    (hmu : st.muHeld = false)
    (hreg : lookupD st.sessions sessionID = some ps)
    (hle : ps.session.startTime ≤ now) (hnow : 0 < now) :
    ∃ st' rec, stopProfiling st sessionID now = some (st', Except.ok rec) ∧
      rec.endTime = now ∧
      rec.endTime ≠ 0 ∧
      rec.startTime = ps.session.startTime ∧
      rec.duration = rec.endTime - rec.startTime ∧
      0 ≤ rec.duration ∧
      st'.dispatched = st.dispatched ++ [rec] ∧
      (activeEndTimesZero st → activeEndTimesZero st') ∧
      (∀ st₀ now₀ st₁ sid, activeEndTimesZero st₀ →
        startProfiling st₀ now₀ = some (st₁, sid) → activeEndTimesZero st₁) := by
  have hrun : stopProfiling st sessionID now =
      some ({ st with
              sessions := st.sessions.filter fun e => e.1 != sessionID,
              dispatched := st.dispatched ++ [finalize ps.session now],
              muHeld := false },
            Except.ok (finalize ps.session now)) := by
    simp [stopProfiling, hmu, hreg]
  refine ⟨_, _, hrun, rfl, ?_, rfl, rfl, ?_, rfl, ?_, ?_⟩
  · simpa [finalize] using (by omega : ¬ now = 0)
  · simpa [finalize] using (by omega : (0 : Int) ≤ now - ps.session.startTime)
  · intro h e he
    exact h e (List.mem_of_mem_filter he)
  · intro st₀ now₀ st₁ sid h hstart
    unfold startProfiling at hstart
    by_cases hm : st₀.muHeld
    · simp [hm] at hstart
    · simp only [hm, if_false] at hstart
      obtain ⟨hst₁, -⟩ := Prod.mk.injEq .. ▸ Option.some.injEq .. ▸ hstart
      intro e he
      rw [← hst₁] at he
      simp only [List.mem_cons] at he
      rcases he with he | he
      · rw [he]
      · exact h e (List.mem_of_mem_filter he)

/-- Claim C2: StopProfiling on an id that is not registered (never
started, or already stopped) returns NotFound and leaves the whole
client state — registry and dispatched records — unchanged; and after a
successful StopProfiling, a second call on the same id is exactly that
NotFound on the unchanged state. -/
theorem stopProfiling_not_found (st : ClientState) (sessionID : String) (now : Int)
    (hmu : st.muHeld = false)
    (habs : lookupD st.sessions sessionID = none) :
    stopProfiling st sessionID now =
      some (st, Except.error (GoError.notFound sessionID)) ∧
    (∀ st₁ ps now₁ st₁' r, st₁.muHeld = false →
      lookupD st₁.sessions sessionID = some ps →
      stopProfiling st₁ sessionID now₁ = some (st₁', r) →
      ∀ now₂, stopProfiling st₁' sessionID now₂ =
        some (st₁', Except.error (GoError.notFound sessionID))) := by
  constructor
  · simp [stopProfiling, hmu, habs]
  · intro st₁ ps now₁ st₁' r hmu₁ hreg₁ hstop now₂
    have hrun : stopProfiling st₁ sessionID now₁ =
        some ({ st₁ with
                sessions := st₁.sessions.filter fun e => e.1 != sessionID,
                dispatched := st₁.dispatched ++ [finalize ps.session now₁],
                muHeld := false },
              Except.ok (finalize ps.session now₁)) := by
      simp [stopProfiling, hmu₁, hreg₁]
    rw [hrun] at hstop
    obtain ⟨hst', -⟩ := Prod.mk.injEq .. ▸ Option.some.injEq .. ▸ hstop
    rw [← hst']
    simp [stopProfiling, lookupD_filter_self]

/-- Claim C5 (the code contradicts it): Close fires the top-level
cancellation and takes c.mu, but then calls StopProfiling, which takes
c.mu again; sync.RWMutex is not reentrant, so Close deadlocks whenever
at least one session is still active — it never terminates, stops no
session, and releases nothing.  Only a client with no active session
closes successfully. -/
theorem close_deadlocks_with_active_session (st : ClientState) (now : Int)
    (hmu : st.muHeld = false) (hne : st.sessions ≠ []) :
    close st now = none ∧
    (∀ st₀ now₀, st₀.muHeld = false → st₀.sessions = [] →
      close st₀ now₀ = some ({ st₀ with cancelled := true }, Except.ok ())) := by
  constructor
  · match hs : st.sessions with
    | [] => exact absurd hs hne
    | e :: rest =>
      simp [close, hmu, hs, closeLoop, stopProfiling]
  · intro st₀ now₀ hmu₀ hs₀
    obtain ⟨a, ss, d, cfl, m⟩ := st₀
    simp only at hmu₀ hs₀
    subst hmu₀ hs₀
    simp [close, closeLoop]

/-! ## The file store (pkg/storage/storage.go) -/

/-- Errors returned by FileStorage operations: the session file is
absent (os.IsNotExist on read), its JSON fails to unmarshal, or the
metrics scanner failed (bufio.Scanner error wrapped by GetMetrics). -/
inductive StoreErr where
  | notFound (sessionID : String)
  | unmarshalFailed (sessionID : String)
  | scanFailed (msg : String)
  deriving DecidableEq

/-- types.ProfileType is a plain string ("cpu", "heap", "io", ...). -/
abbrev ProfileType := String

/-- The free-form metadata map carried by artifacts, modelled as string
key-value pairs (the claims treat it as opaque). -/
abbrev Metadata := List (String × String)

/-- types.ProfileData: one profiling artifact; the payload is the raw
byte sequence. -/
structure ProfileData where
  sessionID : String
  type : ProfileType
  timestamp : Int
  data : List Nat
  metadata : Metadata
  sampleRate : Int
  sampleCount : Int
  deriving DecidableEq

/-- The extension of a file inside a profiles/<sessionID>/ directory.
SaveProfileData writes only "<type>_<ts>.pprof" and
"<type>_<ts>.meta.json" names, so GetProfileData's
strings.HasSuffix(name, ".meta.json") test is exactly the ext =
metaJson check: a name whose last six bytes are ".pprof" can never also
end in ".meta.json". -/
inductive FileExt where
  | pprof
  | metaJson
  deriving DecidableEq

/-- A filename "<base>.<ext>" inside a profiles/<sessionID>/ directory. -/
structure DirName where
  base : String
  ext : FileExt
  deriving DecidableEq

/-- The parsed content of the metadata sidecar written by
SaveProfileData (storage.go lines 176-184). -/
structure MetaSidecar where
  sessionId : String
  type : ProfileType
  timestamp : Int
  sampleRate : Int
  sampleCount : Int
  metadata : Metadata
  file : DirName
  deriving DecidableEq

/-- A file in a profiles/<sessionID>/ directory: either a raw payload
(.pprof) or a metadata sidecar (.meta.json). -/
inductive DirEntry where
  | payload (bytes : List Nat)
  | meta (m : MetaSidecar)
  deriving DecidableEq

/-- A profiles/<sessionID>/ directory listing, in name order. -/
abbrev ProfileDir := List (DirName × DirEntry)

/-- types.MetricsSnapshot.  The float64 gauges (cpu_percent,
memory_percent) are omitted; the storage claims treat snapshots as
opaque records. -/
structure MetricsSnapshot where
  timestamp : Int
  memoryUsed : Nat
  memoryTotal : Nat
  ioReadBytes : Nat
  ioWriteBytes : Nat
  goroutineCount : Int
  heapAlloc : Nat
  heapSys : Nat
  gcPauseTotal : Nat
  deriving DecidableEq

/-- One raw line of a metrics.jsonl file as the bufio.Scanner in
GetMetrics sees it: its byte length terminator included, whether it is
empty after strings.TrimSpace, and the json.Unmarshal result on the
trimmed text (none when the line is malformed). -/
structure MetricsLine where
  size : Nat
  blank : Bool
  parse : Option MetricsSnapshot
  deriving DecidableEq

/-- The scanner buffer limit set in GetMetrics (storage.go line 312):
1MB; a longer line makes bufio.Scanner stop with ErrTooLong. -/
def maxScanTokenSize : Nat := 1024 * 1024

/-- The scan loop of FileStorage.GetMetrics (storage.go lines 316-341):
a line longer than the 1MB buffer aborts the scan with ErrTooLong,
which GetMetrics returns as an error discarding everything collected;
otherwise blank lines are skipped, lines that fail to unmarshal are
skipped with a logged warning, and parsed snapshots are kept in file
order. -/
def scanMetricsLines : List MetricsLine → Except StoreErr (List MetricsSnapshot)
  | [] => Except.ok []
  | l :: ls =>
    if maxScanTokenSize < l.size then
      Except.error (StoreErr.scanFailed
        "error reading metrics file: bufio.Scanner: token too long")
    else if l.blank then
      scanMetricsLines ls
    else
      match l.parse with
      | none => scanMetricsLines ls
      | some m => (scanMetricsLines ls).map fun ms => m :: ms

/-- storage.FileStorage's on-disk state under basePath:
sessions/<id>.json files (`none` means the sessions directory itself
does not exist; an entry's content is `none` when the file is
unreadable or fails to unmarshal), the profiles/<sessionID>/
directories, and the metrics/<sessionID>/metrics.jsonl files. -/
structure FileStorage where
  sessionsDir : Option (List (String × Option ProfileSession))
  profiles : String → Option ProfileDir
  metrics : String → Option (List MetricsLine)

/-- FileStorage.GetSession (storage.go lines 69-88): a missing file is
NotFound; a file that fails to unmarshal is a hard error. -/
def FileStorage.getSession (fs : FileStorage) (sessionID : String) :
    Except StoreErr ProfileSession :=
  match lookupD (fs.sessionsDir.getD []) sessionID with
  | none => Except.error (StoreErr.notFound sessionID)
  | some none => Except.error (StoreErr.unmarshalFailed sessionID)
  | some (some s) => Except.ok s

/-- FileStorage.ListSessions (storage.go lines 90-127): a missing
sessions directory yields an empty list; unreadable or corrupt files
are skipped; the application-id filter admits everything when empty. -/
def FileStorage.listSessions (fs : FileStorage) (applicationID : String) :
    Except StoreErr (List ProfileSession) :=
  match fs.sessionsDir with
  | none => Except.ok []
  | some entries =>
    Except.ok (entries.filterMap fun e =>
      match e.2 with
      | none => none
      | some s =>
        if applicationID = "" ∨ s.applicationID = applicationID then some s else none)

/-- FileStorage.DeleteSession (storage.go lines 129-152): os.Remove of
the session file with os.IsNotExist ignored, then os.RemoveAll of the
profile and metrics directories (both no-ops when absent); the only
modelled failure, absence, is swallowed, so the call returns nil. -/
def FileStorage.deleteSession (fs : FileStorage) (sessionID : String) :
    FileStorage × Except StoreErr Unit :=
  ({ sessionsDir := fs.sessionsDir.map fun l => l.filter fun e => e.1 != sessionID,
     profiles := fun k => if k = sessionID then none else fs.profiles k,
     metrics := fun k => if k = sessionID then none else fs.metrics k },
   Except.ok ())

/-- os.WriteFile into a directory listing: overwrite the entry when the
name exists, else append it. -/
def dirInsert (name : DirName) (entry : DirEntry) : ProfileDir → ProfileDir
  | [] => [(name, entry)]
  | e :: l => if e.1 = name then (name, entry) :: l else e :: dirInsert name entry l

/-- Go time format "20060102_150405" used for artifact filenames:
second resolution, modelled as the nanosecond timestamp truncated to
seconds. -/
def formatSecond (ts : Int) : String := toString (ts / 1000000000)

/-- FileStorage.SaveProfileData (storage.go lines 154-196): creates the
per-session profile directory, writes the raw payload as
"<type>_<ts>.pprof", and writes the metadata sidecar
"<type>_<ts>.meta.json" recording session id, type, timestamp, sample
rate, sample count, metadata, and the payload filename. -/
def FileStorage.saveProfileData (fs : FileStorage) (d : ProfileData) :
    FileStorage × Except StoreErr Unit :=
  let dir := (fs.profiles d.sessionID).getD []
  let base := d.type ++ "_" ++ formatSecond d.timestamp
  let payloadName : DirName := ⟨base, FileExt.pprof⟩
  let metaName : DirName := ⟨base, FileExt.metaJson⟩
  let m : MetaSidecar :=
    { sessionId := d.sessionID, type := d.type, timestamp := d.timestamp,
      sampleRate := d.sampleRate, sampleCount := d.sampleCount,
      metadata := d.metadata, file := payloadName }
  let dir := dirInsert metaName (DirEntry.meta m) (dirInsert payloadName (DirEntry.payload d.data) dir)
  ({ fs with profiles := fun k => if k = d.sessionID then some dir else fs.profiles k },
   Except.ok ())

/-- The entry loop of FileStorage.GetProfileData (storage.go lines
211-259): only ".meta.json" names are processed; a sidecar that cannot
be read or unmarshalled is skipped, as is one whose referenced payload
file cannot be read; otherwise the artifact record is rebuilt from the
sidecar fields and the payload bytes. -/
def profilesFromDir (sessionID : String) (dir : ProfileDir) :
    List (DirName × DirEntry) → List ProfileData
  | [] => []
  | (name, entry) :: rest =>
    if name.ext = FileExt.metaJson then
      match entry with
      | DirEntry.meta m =>
        match lookupD dir m.file with
        | some (DirEntry.payload bytes) =>
          { sessionID := sessionID, type := m.type, timestamp := m.timestamp,
            data := bytes, metadata := m.metadata, sampleRate := m.sampleRate,
            sampleCount := m.sampleCount } :: profilesFromDir sessionID dir rest
        | some (DirEntry.meta _) => profilesFromDir sessionID dir rest
        | none => profilesFromDir sessionID dir rest
      | DirEntry.payload _ => profilesFromDir sessionID dir rest
    else
      profilesFromDir sessionID dir rest

/-- FileStorage.GetProfileData (storage.go lines 198-262): a missing
per-session directory yields an empty list; otherwise the artifacts are
rebuilt from the sidecars alone. -/
def FileStorage.getProfileData (fs : FileStorage) (sessionID : String) :
    Except StoreErr (List ProfileData) :=
  match fs.profiles sessionID with
  | none => Except.ok []
  | some dir => Except.ok (profilesFromDir sessionID dir dir)

/-- FileStorage.GetMetrics (storage.go lines 294-342): a missing
metrics file yields an empty list; otherwise the file is scanned line
by line. -/
def FileStorage.getMetrics (fs : FileStorage) (sessionID : String) :
    Except StoreErr (List MetricsSnapshot) :=
  match fs.metrics sessionID with
  | none => Except.ok []
  | some lines => scanMetricsLines lines

/-! ## Storage theorems -/

/-- Claim C3: SaveProfileData followed by GetProfileData on the same
session id returns the saved artifact: equal type and sample_count and
a byte-identical payload, rebuilt from the metadata sidecar and the
payload file it references — the sessions directory plays no part in
the reconstruction. -/
theorem saveProfileData_getProfileData_roundtrip (fs : FileStorage) (d : ProfileData)
    (hfresh : fs.profiles d.sessionID = none) :
    ∃ p, (fs.saveProfileData d).1.getProfileData d.sessionID = Except.ok [p] ∧
      p.type = d.type ∧ p.sampleCount = d.sampleCount ∧ p.data = d.data ∧
      ∀ sd, ({ (fs.saveProfileData d).1 with
               sessionsDir := sd } : FileStorage).getProfileData d.sessionID =
        (fs.saveProfileData d).1.getProfileData d.sessionID := by
  refine ⟨{ sessionID := d.sessionID, type := d.type, timestamp := d.timestamp,
            data := d.data, metadata := d.metadata, sampleRate := d.sampleRate,
            sampleCount := d.sampleCount }, ?_, rfl, rfl, rfl, fun sd => rfl⟩
  simp [FileStorage.saveProfileData, FileStorage.getProfileData, hfresh,
        dirInsert, profilesFromDir, lookupD]

/-- Claim C7: DeleteSession returns success, and afterwards GetSession
on that id is NotFound and the session's profiles and metrics
directories no longer exist. -/
theorem deleteSession_removes_all (fs : FileStorage) (sessionID : String) :
    (fs.deleteSession sessionID).2 = Except.ok () ∧
    (fs.deleteSession sessionID).1.getSession sessionID =
      Except.error (StoreErr.notFound sessionID) ∧
    (fs.deleteSession sessionID).1.profiles sessionID = none ∧
    (fs.deleteSession sessionID).1.metrics sessionID = none := by
  refine ⟨rfl, ?_, by simp [FileStorage.deleteSession],
          by simp [FileStorage.deleteSession]⟩
  unfold FileStorage.getSession FileStorage.deleteSession
  cases hsd : fs.sessionsDir with
  | none => simp [lookupD]
  | some l => simp [lookupD_filter_self]

/-- Claim C9: DeleteSession on an id with no session file still
returns nil (os.IsNotExist is explicitly ignored), deletion is
idempotent (a second DeleteSession also succeeds), while GetSession on
the same absent id reports NotFound. -/
theorem deleteSession_absent_succeeds (fs : FileStorage) (sessionID : String)
    (habs : lookupD (fs.sessionsDir.getD []) sessionID = none) :
    (fs.deleteSession sessionID).2 = Except.ok () ∧
    ((fs.deleteSession sessionID).1.deleteSession sessionID).2 = Except.ok () ∧
    fs.getSession sessionID = Except.error (StoreErr.notFound sessionID) := by
  refine ⟨rfl, rfl, ?_⟩
  simp [FileStorage.getSession, habs]

/-- Claim C10: with no stored data for a session id (no profiles
directory, no metrics file, no sessions directory), GetProfileData,
GetMetrics and ListSessions each return an empty list with no error,
while GetSession reports the absence as an error. -/
theorem empty_store_reads (fs : FileStorage) (sessionID applicationID : String)
    (hp : fs.profiles sessionID = none)
    (hm : fs.metrics sessionID = none)
    (hs : fs.sessionsDir = none) :
    fs.getProfileData sessionID = Except.ok [] ∧
    fs.getMetrics sessionID = Except.ok [] ∧
    fs.listSessions applicationID = Except.ok [] ∧
    fs.getSession sessionID = Except.error (StoreErr.notFound sessionID) := by
  simp [FileStorage.getProfileData, FileStorage.getMetrics, FileStorage.listSessions,
        FileStorage.getSession, hp, hm, hs, lookupD]

theorem scanMetricsLines_ok (ls : List MetricsLine)
    (h : ∀ l ∈ ls, l.size ≤ maxScanTokenSize) :
    scanMetricsLines ls =
      Except.ok (ls.filterMap fun l => if l.blank then none else l.parse) := by
  induction ls with
  | nil => rfl
  | cons l ls ih =>
    have hl : ¬ maxScanTokenSize < l.size := Nat.not_lt.mpr (h l (by simp))
    have hrest : ∀ x ∈ ls, x.size ≤ maxScanTokenSize := fun x hx => h x (by simp [hx])
    cases hb : l.blank with
    | true => simp [scanMetricsLines, hl, hb, ih hrest]
    | false =>
      cases hp : l.parse with
      | none => simp [scanMetricsLines, hl, hb, hp, ih hrest]
      | some m => simp [scanMetricsLines, hl, hb, hp, ih hrest, Except.map]

/-- An all-zero snapshot, indexed by a timestamp, for concrete metrics
files. -/
def snapAt (i : Int) : MetricsSnapshot :=
  { timestamp := i, memoryUsed := 0, memoryTotal := 0, ioReadBytes := 0,
    ioWriteBytes := 0, goroutineCount := 0, heapAlloc := 0, heapSys := 0,
    gcPauseTotal := 0 }

/-- A well-formed 100-byte metrics line parsing to `snapAt i`. -/
def validLineAt (i : Int) : MetricsLine :=
  { size := 100, blank := false, parse := some (snapAt i) }

/-- A malformed 2MB line: garbage too long for the 1MB scanner buffer. -/
def hugeGarbageLine : MetricsLine :=
  { size := 2 * 1024 * 1024, blank := false, parse := none }

/-- A metrics file holding ten valid JSON lines and one malformed line
that exceeds the scanner buffer. -/
def badMetricsFile : List MetricsLine :=
  [validLineAt 1, validLineAt 2, validLineAt 3, validLineAt 4, validLineAt 5,
   hugeGarbageLine,
   validLineAt 6, validLineAt 7, validLineAt 8, validLineAt 9, validLineAt 10]

/-- A store holding only `badMetricsFile` for session "s". -/
def storeWithBadMetrics : FileStorage :=
  { sessionsDir := none, profiles := fun _ => none,
    metrics := fun k => if k = "s" then some badMetricsFile else none }

/-- Claim C4 counterexample: on a metrics file with one malformed line
(2MB of garbage, exceeding the 1MB scanner buffer) among ten valid JSON
lines, GetMetrics returns a scanner error — not the ten valid
snapshots. -/
theorem getMetrics_oversized_garbage_line_fails :
    storeWithBadMetrics.getMetrics "s" =
      Except.error (StoreErr.scanFailed
        "error reading metrics file: bufio.Scanner: token too long") ∧
    storeWithBadMetrics.getMetrics "s" ≠
      Except.ok [snapAt 1, snapAt 2, snapAt 3, snapAt 4, snapAt 5,
                 snapAt 6, snapAt 7, snapAt 8, snapAt 9, snapAt 10] := by
  have he : storeWithBadMetrics.getMetrics "s" =
      Except.error (StoreErr.scanFailed
        "error reading metrics file: bufio.Scanner: token too long") := rfl
  exact ⟨he, by rw [he]; simp⟩

/-- Claim C4 amended: provided no line exceeds the 1MB scanner buffer,
GetMetrics on a metrics file holding one malformed line among valid
JSON lines returns exactly the valid snapshots, in original file order,
skipping the malformed line with a warning; a malformed line longer
than the buffer instead fails the whole read. -/
theorem getMetrics_skips_bounded_malformed (fs : FileStorage) (sessionID : String)
    (pre post : List MetricsLine) (bad : MetricsLine)
    (hfile : fs.metrics sessionID = some (pre ++ bad :: post))
    (hpre : ∀ l ∈ pre, l.size ≤ maxScanTokenSize ∧ l.blank = false ∧ l.parse.isSome)
    (hpost : ∀ l ∈ post, l.size ≤ maxScanTokenSize ∧ l.blank = false ∧ l.parse.isSome)
    (hbadsize : bad.size ≤ maxScanTokenSize) (hbadparse : bad.parse = none) :
    fs.getMetrics sessionID =
      Except.ok ((pre ++ post).filterMap fun l => l.parse) := by
  have hall : ∀ l ∈ pre ++ bad :: post, l.size ≤ maxScanTokenSize := by
    intro l hl
    rcases List.mem_append.mp hl with h | h
    · exact (hpre l h).1
    · rcases List.mem_cons.mp h with h | h
      · exact h ▸ hbadsize
      · exact (hpost l h).1
  have hbad : (if bad.blank then none else bad.parse) = none := by
    cases hb : bad.blank <;> simp [hbadparse]
  have hskip : ∀ (l : MetricsLine), l.blank = false →
      (if l.blank then none else l.parse) = l.parse := by
    intro l hb
    simp [hb]
  simp only [FileStorage.getMetrics, hfile, scanMetricsLines_ok _ hall]
  rw [List.filterMap_append, List.filterMap_cons, hbad, List.filterMap_append]
  rw [List.filterMap_congr fun l hl => hskip l (hpre l hl).2.1,
      List.filterMap_congr fun l hl => hskip l (hpost l hl).2.1]

/-- A two-line metrics file: one valid line, then a well-formed JSON
line of 1MB + 1 bytes — over the scanner buffer. -/
def overlongMetricsFile : List MetricsLine :=
  [validLineAt 1, { size := 1024 * 1024 + 1, blank := false, parse := some (snapAt 2) }]

/-- A store holding only `overlongMetricsFile` for session "m". -/
def storeWithOverlongMetrics : FileStorage :=
  { sessionsDir := none, profiles := fun _ => none,
    metrics := fun k => if k = "m" then some overlongMetricsFile else none }

/-- Claim C6 counterexample: the 1MB cap is enforced by aborting, not by
skipping — a metrics file whose second line is one byte over the buffer
makes GetMetrics return an error instead of the remaining valid
snapshot, even though that line is well-formed JSON. -/
theorem getMetrics_overlong_line_errors :
    storeWithOverlongMetrics.getMetrics "m" =
      Except.error (StoreErr.scanFailed
        "error reading metrics file: bufio.Scanner: token too long") ∧
    storeWithOverlongMetrics.getMetrics "m" ≠ Except.ok [snapAt 1] := by
  have he : storeWithOverlongMetrics.getMetrics "m" =
      Except.error (StoreErr.scanFailed
        "error reading metrics file: bufio.Scanner: token too long") := rfl
  exact ⟨he, by rw [he]; simp⟩

/-- Claim C6 amended: GetMetrics enforces a 1MB maximum single-line
size; for content whose lines all fit that bound it never returns an
error — blank lines and corrupt lines are skipped with a warning and
the valid snapshots are returned — but a line exceeding the bound
aborts the whole read with an error rather than being skipped. -/
theorem getMetrics_ok_within_limit (fs : FileStorage) (sessionID : String)
    (lines : List MetricsLine)
    (hfile : fs.metrics sessionID = some lines)
    (h : ∀ l ∈ lines, l.size ≤ maxScanTokenSize) :
    fs.getMetrics sessionID =
      Except.ok (lines.filterMap fun l => if l.blank then none else l.parse) := by
  simp only [FileStorage.getMetrics, hfile, scanMetricsLines_ok _ h]

/-! ## The IO collector task (client.collectIOProfile) -/

/-- A gopsutil process.IOCountersStat reading: cumulative uint64
byte/operation counters. -/
structure IOCountersStat where
  readBytes : Nat
  writeBytes : Nat
  readCount : Nat
  writeCount : Nat
  deriving DecidableEq

/-- One dispatched I/O profile sample: the raw cumulative counters plus
the computed deltas (the structured ioData map of client.go lines
252-260). -/
structure IOSample where
  readBytes : Nat
  writeBytes : Nat
  readCount : Nat
  writeCount : Nat
  readDelta : Nat
  writeDelta : Nat
  deriving DecidableEq

/-- Go uint64 subtraction: wraparound modulo 2^64. -/
def u64sub (a b : Nat) : Nat := (2 ^ 64 + a % 2 ^ 64 - b % 2 ^ 64) % 2 ^ 64

/-- One tick body of client.collectIOProfile from the current baseline
(prevReadBytes, prevWriteBytes): compute the deltas against the
baseline, advance the baseline to the current reading, and emit the
structured sample. -/
def ioTick (prev : Nat × Nat) (c : IOCountersStat) : (Nat × Nat) × IOSample :=
  ((c.readBytes, c.writeBytes),
   { readBytes := c.readBytes, writeBytes := c.writeBytes,
     readCount := c.readCount, writeCount := c.writeCount,
     readDelta := u64sub c.readBytes prev.1,
     writeDelta := u64sub c.writeBytes prev.2 })

/-- The tick loop of client.collectIOProfile over the session's
successful counter readings, threading the baseline. -/
def ioTicksFrom (prev : Nat × Nat) : List IOCountersStat → List IOSample
  | [] => []
  | c :: cs => (ioTick prev c).2 :: ioTicksFrom (ioTick prev c).1 cs

/-- The baseline after consuming a list of readings (it is simply the
last reading's byte counters, since each tick overwrites it). -/
def baselineAfter (prev : Nat × Nat) : List IOCountersStat → Nat × Nat
  | [] => prev
  | c :: cs => baselineAfter (c.readBytes, c.writeBytes) cs

/-- client.collectIOProfile: the baseline starts at zero (var
prevReadBytes, prevWriteBytes uint64), an explicit edge case, not an
error. -/
def collectIOProfile (cs : List IOCountersStat) : List IOSample :=
  ioTicksFrom (0, 0) cs

theorem ioTicksFrom_append (prev : Nat × Nat) (xs ys : List IOCountersStat) :
    ioTicksFrom prev (xs ++ ys) =
      ioTicksFrom prev xs ++ ioTicksFrom (baselineAfter prev xs) ys := by
  induction xs generalizing prev with
  | nil => rfl
  | cons c cs ih => simp [ioTicksFrom, baselineAfter, ioTick, ih]

theorem ioTicksFrom_length (prev : Nat × Nat) (cs : List IOCountersStat) :
    (ioTicksFrom prev cs).length = cs.length := by
  induction cs generalizing prev with
  | nil => rfl
  | cons c cs ih => simp [ioTicksFrom, ih]

theorem u64sub_of_le {a b : Nat} (hb : b ≤ a) (ha : a < 2 ^ 64) :
    u64sub a b = a - b := by
  unfold u64sub
  omega

/-- Claim C8: the first dispatched I/O sample's deltas equal the first
reading's cumulative counters (delta against the zero baseline), and
after any earlier ticks, the sample for a reading carries deltas equal
to that reading minus the immediately preceding reading — the baseline
having been advanced to each reading in turn; the raw cumulative
counters are carried alongside the deltas. -/
theorem collectIOProfile_deltas (pre post : List IOCountersStat)
    (c₁ c₂ : IOCountersStat)
    (h₁r : c₁.readBytes < 2 ^ 64) (h₁w : c₁.writeBytes < 2 ^ 64)
    (h₂r : c₂.readBytes < 2 ^ 64) (h₂w : c₂.writeBytes < 2 ^ 64)
    (hmr : c₁.readBytes ≤ c₂.readBytes) (hmw : c₁.writeBytes ≤ c₂.writeBytes) :
    (∃ s₀ rest, collectIOProfile (c₁ :: post) = s₀ :: rest ∧
      s₀.readDelta = c₁.readBytes ∧ s₀.writeDelta = c₁.writeBytes ∧
      s₀.readBytes = c₁.readBytes ∧ s₀.writeBytes = c₁.writeBytes) ∧
    (∃ spre s₁ s₂ rest, collectIOProfile (pre ++ c₁ :: c₂ :: post) =
        spre ++ s₁ :: s₂ :: rest ∧ spre.length = pre.length ∧
      s₂.readDelta = c₂.readBytes - c₁.readBytes ∧
      s₂.writeDelta = c₂.writeBytes - c₁.writeBytes ∧
      s₂.readBytes = c₂.readBytes ∧ s₂.writeBytes = c₂.writeBytes) := by
  constructor
  · refine ⟨(ioTick (0, 0) c₁).2, _, rfl, ?_, ?_, rfl, rfl⟩
    · exact u64sub_of_le (Nat.zero_le _) h₁r
    · exact u64sub_of_le (Nat.zero_le _) h₁w
  · refine ⟨ioTicksFrom (0, 0) pre,
      (ioTick (baselineAfter (0, 0) pre) c₁).2,
      (ioTick (c₁.readBytes, c₁.writeBytes) c₂).2,
      ioTicksFrom (c₂.readBytes, c₂.writeBytes) post, ?_,
      ioTicksFrom_length _ _, ?_, ?_, rfl, rfl⟩
    · rw [collectIOProfile, ioTicksFrom_append]
      simp [ioTicksFrom, ioTick]
    · exact u64sub_of_le hmr h₂r
    · exact u64sub_of_le hmw h₂w

/-! ## Concrete witness states -/

/-- A registered, still-active session record. -/
def wSession : ProfileSession :=
  { id := "a", applicationID := "app", startTime := 1, endTime := 0, duration := 0 }

/-- The registry wrapper for `wSession`. -/
def wPS : ProfilingSession := { session := wSession, collecting := true }

/-- A client with exactly one active session, not holding its mutex. -/
def wClient : ClientState :=
  { appID := "app", sessions := [("a", wPS)], dispatched := [],
    cancelled := false, muHeld := false }

/-- A store with nothing on disk. -/
def wEmptyStore : FileStorage :=
  { sessionsDir := none, profiles := fun _ => none, metrics := fun _ => none }

/-- A three-byte CPU artifact for session "s". -/
def wProfileData : ProfileData :=
  { sessionID := "s", type := "cpu", timestamp := 3, data := [1, 2, 3],
    metadata := [], sampleRate := 0, sampleCount := 3 }

/-- Witness for C1: stopping the one registered session of `wClient`
at time 5. -/
theorem stopProfiling_sets_end_time_witness :
    (wClient.muHeld = false ∧ lookupD wClient.sessions "a" = some wPS ∧
     wPS.session.startTime ≤ 5 ∧ (0 : Int) < 5) ∧
    (∃ st' rec, stopProfiling wClient "a" 5 = some (st', Except.ok rec) ∧
      rec.endTime = 5 ∧
      rec.endTime ≠ 0 ∧
      rec.startTime = wPS.session.startTime ∧
      rec.duration = rec.endTime - rec.startTime ∧
      0 ≤ rec.duration ∧
      st'.dispatched = wClient.dispatched ++ [rec] ∧
      (activeEndTimesZero wClient → activeEndTimesZero st') ∧
      (∀ st₀ now₀ st₁ sid, activeEndTimesZero st₀ →
        startProfiling st₀ now₀ = some (st₁, sid) → activeEndTimesZero st₁)) :=
  ⟨⟨rfl, by decide, by decide, by decide⟩,
   stopProfiling_sets_end_time wClient "a" wPS 5 rfl (by decide) (by decide) (by decide)⟩

/-- Witness for C2: stopping the unregistered id "b" on `wClient`. -/
theorem stopProfiling_not_found_witness :
    (wClient.muHeld = false ∧ lookupD wClient.sessions "b" = none) ∧
    (stopProfiling wClient "b" 5 =
       some (wClient, Except.error (GoError.notFound "b")) ∧
     (∀ st₁ ps now₁ st₁' r, st₁.muHeld = false →
       lookupD st₁.sessions "b" = some ps →
       stopProfiling st₁ "b" now₁ = some (st₁', r) →
       ∀ now₂, stopProfiling st₁' "b" now₂ =
         some (st₁', Except.error (GoError.notFound "b")))) :=
  ⟨⟨rfl, by decide⟩, stopProfiling_not_found wClient "b" 5 rfl (by decide)⟩

/-- Witness for C5: Close on `wClient`, which has one active session,
deadlocks. -/
theorem close_deadlocks_with_active_session_witness :
    (wClient.muHeld = false ∧ wClient.sessions ≠ []) ∧
    (close wClient 7 = none ∧
     (∀ st₀ now₀, st₀.muHeld = false → st₀.sessions = [] →
       close st₀ now₀ = some ({ st₀ with cancelled := true }, Except.ok ()))) :=
  ⟨⟨rfl, by decide⟩, close_deadlocks_with_active_session wClient 7 rfl (by decide)⟩

/-- Witness for C3: saving `wProfileData` into the empty store and
reading it back. -/
theorem saveProfileData_getProfileData_roundtrip_witness :
    (wEmptyStore.profiles wProfileData.sessionID = none) ∧
    (∃ p, (wEmptyStore.saveProfileData wProfileData).1.getProfileData
        wProfileData.sessionID = Except.ok [p] ∧
      p.type = wProfileData.type ∧ p.sampleCount = wProfileData.sampleCount ∧
      p.data = wProfileData.data ∧
      ∀ sd, ({ (wEmptyStore.saveProfileData wProfileData).1 with
               sessionsDir := sd } : FileStorage).getProfileData
          wProfileData.sessionID =
        (wEmptyStore.saveProfileData wProfileData).1.getProfileData
          wProfileData.sessionID) :=
  ⟨rfl, saveProfileData_getProfileData_roundtrip wEmptyStore wProfileData rfl⟩

/-- Witness for C9: deleting session "s" from the empty store. -/
theorem deleteSession_absent_succeeds_witness :
    (lookupD (wEmptyStore.sessionsDir.getD []) "s" = none) ∧
    ((wEmptyStore.deleteSession "s").2 = Except.ok () ∧
     ((wEmptyStore.deleteSession "s").1.deleteSession "s").2 = Except.ok () ∧
     wEmptyStore.getSession "s" = Except.error (StoreErr.notFound "s")) :=
  ⟨rfl, deleteSession_absent_succeeds wEmptyStore "s" rfl⟩

/-- Witness for C10: all reads on the empty store. -/
theorem empty_store_reads_witness :
    (wEmptyStore.profiles "s" = none ∧ wEmptyStore.metrics "s" = none ∧
     wEmptyStore.sessionsDir = none) ∧
    (wEmptyStore.getProfileData "s" = Except.ok [] ∧
     wEmptyStore.getMetrics "s" = Except.ok [] ∧
     wEmptyStore.listSessions "app" = Except.ok [] ∧
     wEmptyStore.getSession "s" = Except.error (StoreErr.notFound "s")) :=
  ⟨⟨rfl, rfl, rfl⟩, empty_store_reads wEmptyStore "s" "app" rfl rfl rfl⟩

/-- A three-byte malformed line, well within the scanner buffer. -/
def smallBadLine : MetricsLine := { size := 3, blank := false, parse := none }

/-- Five valid lines preceding the malformed one. -/
def wGoodPre : List MetricsLine :=
  [validLineAt 1, validLineAt 2, validLineAt 3, validLineAt 4, validLineAt 5]

/-- Five valid lines following the malformed one. -/
def wGoodPost : List MetricsLine :=
  [validLineAt 6, validLineAt 7, validLineAt 8, validLineAt 9, validLineAt 10]

/-- A store whose metrics file for "s" holds ten valid lines around one
small malformed line. -/
def storeWithSmallBadMetrics : FileStorage :=
  { sessionsDir := none, profiles := fun _ => none,
    metrics := fun k =>
      if k = "s" then some (wGoodPre ++ smallBadLine :: wGoodPost) else none }

/-- Witness for the amended C4: the ten valid snapshots come back in
order, the small malformed line skipped. -/
theorem getMetrics_skips_bounded_malformed_witness :
    (storeWithSmallBadMetrics.metrics "s" =
       some (wGoodPre ++ smallBadLine :: wGoodPost) ∧
     (∀ l ∈ wGoodPre, l.size ≤ maxScanTokenSize ∧ l.blank = false ∧ l.parse.isSome) ∧
     (∀ l ∈ wGoodPost, l.size ≤ maxScanTokenSize ∧ l.blank = false ∧ l.parse.isSome) ∧
     smallBadLine.size ≤ maxScanTokenSize ∧ smallBadLine.parse = none) ∧
    storeWithSmallBadMetrics.getMetrics "s" =
      Except.ok ((wGoodPre ++ wGoodPost).filterMap fun l => l.parse) :=
  ⟨⟨rfl, by decide, by decide, by decide, rfl⟩,
   getMetrics_skips_bounded_malformed storeWithSmallBadMetrics "s"
     wGoodPre wGoodPost smallBadLine rfl (by decide) (by decide) (by decide) rfl⟩

/-- Witness for the amended C6: the same file, all lines bounded, reads
back without error. -/
theorem getMetrics_ok_within_limit_witness :
    (storeWithSmallBadMetrics.metrics "s" =
       some (wGoodPre ++ smallBadLine :: wGoodPost) ∧
     ∀ l ∈ wGoodPre ++ smallBadLine :: wGoodPost, l.size ≤ maxScanTokenSize) ∧
    storeWithSmallBadMetrics.getMetrics "s" =
      Except.ok ((wGoodPre ++ smallBadLine :: wGoodPost).filterMap
        fun l => if l.blank then none else l.parse) :=
  ⟨⟨rfl, by decide⟩,
   getMetrics_ok_within_limit storeWithSmallBadMetrics "s"
     (wGoodPre ++ smallBadLine :: wGoodPost) rfl (by decide)⟩

/-- A first cumulative I/O reading. -/
def wCounters1 : IOCountersStat :=
  { readBytes := 10, writeBytes := 20, readCount := 1, writeCount := 2 }

/-- A second, larger cumulative I/O reading. -/
def wCounters2 : IOCountersStat :=
  { readBytes := 15, writeBytes := 30, readCount := 2, writeCount := 3 }

/-- Witness for C8 on two concrete readings. -/
theorem collectIOProfile_deltas_witness :
    (wCounters1.readBytes < 2 ^ 64 ∧ wCounters1.writeBytes < 2 ^ 64 ∧
     wCounters2.readBytes < 2 ^ 64 ∧ wCounters2.writeBytes < 2 ^ 64 ∧
     wCounters1.readBytes ≤ wCounters2.readBytes ∧
     wCounters1.writeBytes ≤ wCounters2.writeBytes) ∧
    ((∃ s₀ rest, collectIOProfile (wCounters1 :: []) = s₀ :: rest ∧
       s₀.readDelta = wCounters1.readBytes ∧ s₀.writeDelta = wCounters1.writeBytes ∧
       s₀.readBytes = wCounters1.readBytes ∧ s₀.writeBytes = wCounters1.writeBytes) ∧
     (∃ spre s₁ s₂ rest, collectIOProfile ([] ++ wCounters1 :: wCounters2 :: []) =
         spre ++ s₁ :: s₂ :: rest ∧ spre.length = List.length ([] : List IOCountersStat) ∧
       s₂.readDelta = wCounters2.readBytes - wCounters1.readBytes ∧
       s₂.writeDelta = wCounters2.writeBytes - wCounters1.writeBytes ∧
       s₂.readBytes = wCounters2.readBytes ∧ s₂.writeBytes = wCounters2.writeBytes)) :=
  ⟨⟨by decide, by decide, by decide, by decide, by decide, by decide⟩,
   collectIOProfile_deltas [] [] wCounters1 wCounters2
     (by decide) (by decide) (by decide) (by decide) (by decide) (by decide)⟩

end Analysis
